import Mathlib

/-!
Shallow embedding of the FlightBot tracking core: the `FlightService`
identifier validation/classification and status logic, the `ApiUsageTracker`
monthly quota state machine, and the `FlightMonitor` poll cycle, together
with theorems settling the specification claims about them.

JavaScript `Date.getTime()` values are modelled as `Nat` milliseconds;
strings are Lean `String`s; optional TS fields are `Option`s; the remote
API and the wall clock are passed in as explicit parameters.
-/

namespace FlightService

/-- Characters kept by `identifier.replace(/[^A-Z0-9]/gi, '')`:
ASCII letters and digits. -/
def cleanChars (cs : List Char) : List Char :=
  cs.filter Char.isAlphanum

/-- The cleaned identifier, as in
`const cleanIdentifier = identifier.replace(/[^A-Z0-9]/gi, '')`. -/
def cleanIdentifier (s : String) : List Char :=
  cleanChars s.data

/-- Matcher for the regex of `isFlightNumber`:
2 to 3 ASCII letters, then 1 to 4 digits, then an optional letter,
anchored at both ends, case-insensitive. Greedy runs are exact here because
the letter block, digit block and optional suffix draw from disjoint
character classes. -/
def flightNumberChars (cs : List Char) : Bool :=
  let lets := cs.takeWhile Char.isAlpha
  let rest := cs.drop lets.length
  let digs := rest.takeWhile Char.isDigit
  let rest2 := rest.drop digs.length
  decide (2 ≤ lets.length) && decide (lets.length ≤ 3) &&
  decide (1 ≤ digs.length) && decide (digs.length ≤ 4) &&
  (match rest2 with
   | [] => true
   | [c] => c.isAlpha
   | _ => false)

/-- `FlightService.isFlightNumber`. -/
def isFlightNumber (cs : List Char) : Bool :=
  flightNumberChars cs

/-- First alternative of the `isTailNumber` regex: a letter, an optional
dash, then 1 to 5 alphanumerics, case-insensitive. Consuming the dash
greedily is exact because the alphanumeric block cannot start with a dash. -/
def tailChars1 : List Char → Bool
  | [] => false
  | c :: rest =>
    c.isAlpha &&
      (let rest2 := match rest with
        | '-' :: t => t
        | _ => rest
       decide (1 ≤ rest2.length) && decide (rest2.length ≤ 5) &&
         rest2.all Char.isAlphanum)

/-- Second alternative of the `isTailNumber` regex: `N` (case-insensitive),
then 1 to 5 digits, then 0 to 2 letters. -/
def tailChars2 : List Char → Bool
  | [] => false
  | c :: rest =>
    (c == 'N' || c == 'n') &&
      (let digs := rest.takeWhile Char.isDigit
       let rest2 := rest.drop digs.length
       decide (1 ≤ digs.length) && decide (digs.length ≤ 5) &&
         decide (rest2.length ≤ 2) && rest2.all Char.isAlpha)

/-- `FlightService.isTailNumber`: disjunction of the two regex
alternatives. -/
def isTailNumber (cs : List Char) : Bool :=
  tailChars1 cs || tailChars2 cs

/-- How `getFlightData` classifies a cleaned identifier: `isFlightNumber`
is consulted first, `isTailNumber` only in the `else if` branch. -/
inductive Classification where
  | flightNum
  | tailNum
  | invalid
deriving DecidableEq, Repr

/-- The classification actually performed by `getFlightData` lines 50-63:
flight-number test first, tail-number test second. -/
def classify (cs : List Char) : Classification :=
  if isFlightNumber cs then .flightNum
  else if isTailNumber cs then .tailNum
  else .invalid

/-- `updateTriggers` array in `shouldSendUpdate`. -/
def updateTriggers : List String :=
  ["scheduled", "active", "landed", "cancelled", "incident", "diverted"]

/-- `FlightService.shouldSendUpdate`. -/
def shouldSendUpdate (currentStatus previousStatus : String) : Bool :=
  currentStatus != previousStatus && updateTriggers.contains currentStatus

end FlightService

namespace FlightService

/-- The `origin` / `destination` sub-object of a FlightAware API record. -/
structure FAAirportRef where
  name : Option String := none
  code_iata : Option String := none
  code_icao : Option String := none
deriving DecidableEq, Repr

/-- The raw upstream record (`FlightAwareFlight` in `types.ts`); every
field is optional. -/
structure FlightAwareFlight where
  ident_iata : Option String := none
  ident_icao : Option String := none
  ident : Option String := none
  flight_number : Option String := none
  status : Option String := none
  operator : Option String := none
  operator_iata : Option String := none
  operator_icao : Option String := none
  origin : Option FAAirportRef := none
  destination : Option FAAirportRef := none
  scheduled_out : Option String := none
  estimated_out : Option String := none
  actual_out : Option String := none
  scheduled_in : Option String := none
  estimated_in : Option String := none
  actual_in : Option String := none
  gate_origin : Option String := none
  terminal_origin : Option String := none
  gate_destination : Option String := none
  terminal_destination : Option String := none
  registration : Option String := none
  aircraft_type : Option String := none
  progress_percent : Option Nat := none
  route : Option String := none
  cancelled : Option Bool := none
  diverted : Option Bool := none
  fa_flight_id : Option String := none
deriving DecidableEq, Repr

/-- `FlightIdentifier` in `types.ts`. -/
structure FlightIdent where
  iata : Option String := none
  icao : Option String := none
  number : Option String := none
  flight_number : Option String := none
deriving DecidableEq, Repr

/-- `AirlineInfo` in `types.ts`. -/
structure AirlineInfo where
  name : Option String := none
  iata : Option String := none
  icao : Option String := none
deriving DecidableEq, Repr

/-- `AirportInfo` in `types.ts`. -/
structure AirportInfo where
  airport : Option String := none
  iata : Option String := none
  icao : Option String := none
  scheduled : Option String := none
  estimated : Option String := none
  actual : Option String := none
  gate : Option String := none
  terminal : Option String := none
deriving DecidableEq, Repr

/-- `AircraftInfo` in `types.ts`. -/
structure AircraftInfo where
  registration : Option String := none
  type : Option String := none
deriving DecidableEq, Repr

/-- `NormalizedFlight` in `types.ts`. -/
structure NormalizedFlight where
  flight : FlightIdent
  flight_status : String
  airline : Option AirlineInfo := none
  departure : Option AirportInfo := none
  arrival : Option AirportInfo := none
  aircraft : Option AircraftInfo := none
  progress_percent : Option Nat := none
  route : Option String := none
  cancelled : Option Bool := none
  diverted : Option Bool := none
  searchType : Option String := none
  faFlightId : Option String := none
deriving DecidableEq, Repr

/-- `FlightService.mapFlightAwareStatus`: fixed table, unmapped values
lower-cased and passed through, missing status becomes `unknown`. -/
def mapFlightAwareStatus (status : Option String) : String :=
  match status with
  | some "Scheduled" => "scheduled"
  | some "Active" => "active"
  | some "Completed" => "landed"
  | some "Cancelled" => "cancelled"
  | some "Diverted" => "diverted"
  | some s => s.toLower
  | none => "unknown"

/-- `FlightService.normalizeFlightData`. JS `a ?? b` on optional fields is
`Option.getD`; `flight.origin?.name` is `origin.bind name`. -/
def normalizeFlightData (flight : FlightAwareFlight) (searchType : String) :
    NormalizedFlight where
  flight :=
    { iata := flight.ident_iata
      icao := flight.ident_icao
      number := flight.ident
      flight_number := flight.flight_number }
  flight_status := mapFlightAwareStatus flight.status
  airline := some
    { name := some (flight.operator.getD "Unknown Airline")
      iata := flight.operator_iata
      icao := flight.operator_icao }
  departure := some
    { airport := some ((flight.origin.bind FAAirportRef.name).getD
        ((flight.origin.bind FAAirportRef.code_iata).getD "Unknown"))
      iata := flight.origin.bind FAAirportRef.code_iata
      icao := flight.origin.bind FAAirportRef.code_icao
      scheduled := flight.scheduled_out
      estimated := flight.estimated_out
      actual := flight.actual_out
      gate := flight.gate_origin
      terminal := flight.terminal_origin }
  arrival := some
    { airport := some ((flight.destination.bind FAAirportRef.name).getD
        ((flight.destination.bind FAAirportRef.code_iata).getD "Unknown"))
      iata := flight.destination.bind FAAirportRef.code_iata
      icao := flight.destination.bind FAAirportRef.code_icao
      scheduled := flight.scheduled_in
      estimated := flight.estimated_in
      actual := flight.actual_in
      gate := flight.gate_destination
      terminal := flight.terminal_destination }
  aircraft := some
    { registration := flight.registration
      type := flight.aircraft_type }
  progress_percent := flight.progress_percent
  route := flight.route
  cancelled := flight.cancelled
  diverted := flight.diverted
  searchType := some searchType
  faFlightId := flight.fa_flight_id

/-- The private-aviation test of `formatFlightMessage` (and
`getUpdateMessage`): `const airline = flight.airline?.name;
const isPrivateAviation = !airline || airline === 'Unknown Airline'`.
JS `!s` on a string is true exactly for the empty string (or a missing
value). -/
def formatterIsPrivateAviation (flight : NormalizedFlight) : Bool :=
  match flight.airline with
  | none => true
  | some a =>
    match a.name with
    | none => true
    | some n => n == "" || n == "Unknown Airline"

end FlightService

/-- C1: `shouldSendUpdate` is true exactly when the status changed and the
new status is one of the six trigger values; a change to `unknown` and an
unchanged status both yield false. -/
theorem shouldSendUpdate_iff_trigger_transition :
    (∀ cur prev : String,
      FlightService.shouldSendUpdate cur prev = true ↔
        (cur ≠ prev ∧ (cur = "scheduled" ∨ cur = "active" ∨ cur = "landed" ∨
          cur = "cancelled" ∨ cur = "incident" ∨ cur = "diverted"))) ∧
    (∀ prev : String, FlightService.shouldSendUpdate "unknown" prev = false) ∧
    (∀ s : String, FlightService.shouldSendUpdate s s = false) := by
  refine ⟨fun cur prev => ?_, fun prev => ?_, fun s => ?_⟩
  · simp [FlightService.shouldSendUpdate, FlightService.updateTriggers,
      List.contains_cons, and_comm]
  · simp [FlightService.shouldSendUpdate, FlightService.updateTriggers,
      List.contains_cons]
  · simp [FlightService.shouldSendUpdate]

/-- C9 counterexample: the cleaned identifier `UA400` satisfies both
`isFlightNumber` and the first tail-number regex alternative, so the two
classifications are not mutually exclusive. -/
theorem isFlightNumber_isTailNumber_overlap_UA400 :
    FlightService.cleanIdentifier "UA400" = "UA400".data ∧
    FlightService.isFlightNumber "UA400".data = true ∧
    FlightService.isTailNumber "UA400".data = true := by
  decide

/-- C9 amended: the predicates `isFlightNumber` and `isTailNumber` overlap
(e.g. on `UA400`), but `getFlightData` tests `isFlightNumber` first, so
every identifier receives exactly one classification: flight-number when
`isFlightNumber` holds, tail-number when only `isTailNumber` holds, invalid
otherwise. -/
theorem classify_assigns_exactly_one (cs : List Char) :
    (FlightService.classify cs = .flightNum ↔
      FlightService.isFlightNumber cs = true) ∧
    (FlightService.classify cs = .tailNum ↔
      (FlightService.isFlightNumber cs = false ∧
        FlightService.isTailNumber cs = true)) ∧
    (FlightService.classify cs = .invalid ↔
      (FlightService.isFlightNumber cs = false ∧
        FlightService.isTailNumber cs = false)) := by
  unfold FlightService.classify
  rcases h1 : FlightService.isFlightNumber cs <;>
    rcases h2 : FlightService.isTailNumber cs <;> simp

/-- Upstream record whose `operator` field is present but empty: the one
input separating "name equals the sentinel" from the formatter's actual
JS-truthiness test. -/
def emptyOperatorFlight : FlightService.FlightAwareFlight :=
  { operator := some "" }

/-- C10 counterexample: after normalizing a record with `operator: ""`,
the airline name is defined and differs from the sentinel
`Unknown Airline`, yet the formatter still takes the private-aviation
branch — the decision is not determined solely by equality with the
sentinel. -/
theorem formatterIsPrivateAviation_not_only_sentinel :
    FlightService.formatterIsPrivateAviation
      (FlightService.normalizeFlightData emptyOperatorFlight "flight_number") = true ∧
    ((FlightService.normalizeFlightData emptyOperatorFlight
        "flight_number").airline.bind FlightService.AirlineInfo.name) = some "" ∧
    some "" ≠ some "Unknown Airline" := by
  refine ⟨rfl, rfl, by simp⟩

/-- C10 amended: every record produced by `normalizeFlightData` has a
defined airline name (the upstream operator when present, else the
sentinel `Unknown Airline`) and defined departure / arrival airport
strings (name, else IATA code, else `Unknown`); for such records the
formatter's private-aviation decision is determined by whether the airline
name is the empty string or equals the sentinel. -/
theorem normalizeFlightData_defined_fields
    (f : FlightService.FlightAwareFlight) (st : String) :
    ((FlightService.normalizeFlightData f st).airline.bind
        FlightService.AirlineInfo.name) =
      some (f.operator.getD "Unknown Airline") ∧
    ((FlightService.normalizeFlightData f st).departure.bind
        FlightService.AirportInfo.airport) =
      some ((f.origin.bind FlightService.FAAirportRef.name).getD
        ((f.origin.bind FlightService.FAAirportRef.code_iata).getD "Unknown")) ∧
    ((FlightService.normalizeFlightData f st).arrival.bind
        FlightService.AirportInfo.airport) =
      some ((f.destination.bind FlightService.FAAirportRef.name).getD
        ((f.destination.bind FlightService.FAAirportRef.code_iata).getD
          "Unknown")) ∧
    FlightService.formatterIsPrivateAviation
        (FlightService.normalizeFlightData f st) =
      ((f.operator.getD "Unknown Airline") == "" ||
        (f.operator.getD "Unknown Airline") == "Unknown Airline") := by
  refine ⟨rfl, rfl, rfl, ?_⟩
  simp [FlightService.normalizeFlightData, FlightService.formatterIsPrivateAviation]

namespace ApiUsageTracker

/-- The slice of a JS `Date` the tracker reads: `getMonth()` (0 to 11),
`getFullYear()`, and `toISOString()` for log entries. -/
structure JsDate where
  month : Nat
  year : Nat
  iso : String := ""

/-- `ApiRequest` in `types.ts`. -/
structure ApiRequest where
  timestamp : String
  type : String
  flightId : Option String

/-- `UsageData` in `types.ts`: the persisted quota state. -/
structure UsageData where
  month : Nat
  year : Nat
  count : Nat
  requests : List ApiRequest
  lastReset : String := ""

/-- `ApiUsageTracker.resetUsage` (the persisted side effect is outside the
core model; the in-memory state is what matters). -/
def resetUsage (now : JsDate) : UsageData :=
  { month := now.month, year := now.year, count := 0, requests := [],
    lastReset := now.iso }

/-- `ApiUsageTracker.isNewMonth`. -/
def isNewMonth (now : JsDate) (u : UsageData) : Bool :=
  u.month != now.month || u.year != now.year

/-- The rollover guard that opens every accessor:
`if (this.isNewMonth()) this.resetUsage();`. -/
def rollover (now : JsDate) (u : UsageData) : UsageData :=
  if isNewMonth now u then resetUsage now else u

/-- `ApiUsageTracker.canMakeRequest`; returns the result together with the
tracker state after the call. -/
def canMakeRequest (monthlyLimit : Nat) (now : JsDate) (u : UsageData) :
    Bool × UsageData :=
  let u := rollover now u
  (u.count < monthlyLimit, u)

/-- `ApiUsageTracker.getRemainingRequests`: `Math.max(0, limit - count)`
(Nat subtraction truncates at zero exactly like the `max`). -/
def getRemainingRequests (monthlyLimit : Nat) (now : JsDate) (u : UsageData) :
    Nat × UsageData :=
  let u := rollover now u
  (monthlyLimit - u.count, u)

/-- `ApiUsageTracker.getUsagePercentage`: `(count / limit) * 100`, modelled
over the rationals. -/
def getUsagePercentage (monthlyLimit : Nat) (now : JsDate) (u : UsageData) :
    ℚ × UsageData :=
  let u := rollover now u
  ((u.count : ℚ) / (monthlyLimit : ℚ) * 100, u)

/-- `ApiUsageTracker.recordRequest`: rollover, increment, append a log
entry, keep only the last 100 entries (`slice(-100)`); the threshold
warnings are logging only and leave the state untouched. -/
def recordRequest (ty : String) (flightId : Option String) (now : JsDate)
    (u : UsageData) : UsageData :=
  let u := rollover now u
  let entry : ApiRequest :=
    { timestamp := now.iso, type := ty, flightId := flightId }
  let u := { u with
    count := u.count + 1
    requests := u.requests ++ [entry] }
  if u.requests.length > 100 then
    { u with requests := u.requests.drop (u.requests.length - 100) }
  else u

end ApiUsageTracker

/-- C5: every accessor performs the month-rollover check first — when the
stored month or year differs from the wall clock, each of
`canMakeRequest`, `getRemainingRequests`, `getUsagePercentage` and
`recordRequest` behaves exactly as if called on the freshly reset state
(zero count, empty log); in particular a stale state with `count = 1001`
and limit 1000 yields `canMakeRequest = true` this month. -/
theorem accessors_rollover_first (monthlyLimit : Nat)
    (now : ApiUsageTracker.JsDate) (u : ApiUsageTracker.UsageData)
    (ty : String) (flightId : Option String)
    (h : ApiUsageTracker.isNewMonth now u = true) :
    ApiUsageTracker.canMakeRequest monthlyLimit now u =
      ApiUsageTracker.canMakeRequest monthlyLimit now
        (ApiUsageTracker.resetUsage now) ∧
    ApiUsageTracker.getRemainingRequests monthlyLimit now u =
      ApiUsageTracker.getRemainingRequests monthlyLimit now
        (ApiUsageTracker.resetUsage now) ∧
    ApiUsageTracker.getUsagePercentage monthlyLimit now u =
      ApiUsageTracker.getUsagePercentage monthlyLimit now
        (ApiUsageTracker.resetUsage now) ∧
    ApiUsageTracker.recordRequest ty flightId now u =
      ApiUsageTracker.recordRequest ty flightId now
        (ApiUsageTracker.resetUsage now) ∧
    (u.count = 1001 → monthlyLimit = 1000 →
      (ApiUsageTracker.canMakeRequest monthlyLimit now u).1 = true) := by
  have hres : ApiUsageTracker.isNewMonth now
      (ApiUsageTracker.resetUsage now) = false := by
    simp [ApiUsageTracker.isNewMonth, ApiUsageTracker.resetUsage]
  refine ⟨?_, ?_, ?_, ?_, ?_⟩ <;>
    simp [ApiUsageTracker.canMakeRequest, ApiUsageTracker.getRemainingRequests,
      ApiUsageTracker.getUsagePercentage, ApiUsageTracker.recordRequest,
      ApiUsageTracker.rollover, h, hres, ApiUsageTracker.resetUsage]
  intro _ hl
  omega

/-- C5 witness: a stored state from April 2025 with `count = 1001` against
a May 2025 wall clock and limit 1000 is reset first, so `canMakeRequest`
answers true. -/
theorem accessors_rollover_first_witness :
    ApiUsageTracker.isNewMonth ⟨4, 2025, ""⟩
        ⟨3, 2025, 1001, [], ""⟩ = true ∧
    (ApiUsageTracker.canMakeRequest 1000 ⟨4, 2025, ""⟩
        ⟨3, 2025, 1001, [], ""⟩).1 = true := by
  refine ⟨by decide, ?_⟩
  exact (accessors_rollover_first 1000 ⟨4, 2025, ""⟩ ⟨3, 2025, 1001, [], ""⟩
    "flight_lookup" none (by decide)).2.2.2.2 rfl rfl

namespace FlightService

/-- The typed identity of each error `getFlightData` can throw, keyed by
the thrown message the command handler string-matches on:
`tooShort` is "Flight identifier too short", `quotaExceeded` is
"API usage limit reached (...)", `invalidFormat` is
"Invalid flight identifier format", `authFailed` is
"API authentication failed" (HTTP 401), `rateLimited` is
"API rate limit exceeded" (HTTP 429); any other transport failure is
rethrown with its axios status. -/
inductive LookupError where
  | tooShort
  | quotaExceeded
  | invalidFormat
  | authFailed
  | rateLimited
  | transport (status : Option Nat)
deriving DecidableEq, Repr

/-- One AeroAPI response: a flights array, or an axios failure carrying an
optional HTTP status code. -/
inductive ApiResult where
  | ok (flights : List FlightAwareFlight)
  | err (status : Option Nat)

/-- The two remote endpoints `getFlightData` can hit, as black boxes:
`GET /flights/id` and the tail-number fallback
`GET /aircraft/id/flights`. -/
structure Env where
  flightsEndpoint : List Char → ApiResult
  aircraftFlightsEndpoint : List Char → ApiResult

/-- The 401 / 429 mapping of the outer catch block of `getFlightData`. -/
def mapCaught (status : Option Nat) : LookupError :=
  if status = some 401 then .authFailed
  else if status = some 429 then .rateLimited
  else .transport status

/-- `FlightService.getFlightByNumber`: query `/flights/id`, record one
`flight_lookup` request on success, normalize the first result or return
`none` for an empty array; transport failures propagate. -/
def getFlightByNumber (env : Env) (now : ApiUsageTracker.JsDate)
    (u : ApiUsageTracker.UsageData) (flightNumber : List Char) :
    Except (Option Nat) (Option NormalizedFlight) × ApiUsageTracker.UsageData :=
  match env.flightsEndpoint flightNumber with
  | .err st => (.error st, u)
  | .ok flights =>
    let u := ApiUsageTracker.recordRequest "flight_lookup"
      (some (String.mk flightNumber)) now u
    match flights with
    | [] => (.ok none, u)
    | f :: _ => (.ok (some (normalizeFlightData f "flight_number")), u)

/-- `FlightService.getFlightByTailNumber`: query `/flights/id`, retry once
against `/aircraft/id/flights` only on an HTTP 400, then record one
`tail_lookup` request on success. -/
def getFlightByTailNumber (env : Env) (now : ApiUsageTracker.JsDate)
    (u : ApiUsageTracker.UsageData) (tailNumber : List Char) :
    Except (Option Nat) (Option NormalizedFlight) × ApiUsageTracker.UsageData :=
  let resp := match env.flightsEndpoint tailNumber with
    | .err (some 400) => env.aircraftFlightsEndpoint tailNumber
    | r => r
  match resp with
  | .err st => (.error st, u)
  | .ok flights =>
    let u := ApiUsageTracker.recordRequest "tail_lookup"
      (some (String.mk tailNumber)) now u
    match flights with
    | [] => (.ok none, u)
    | f :: _ => (.ok (some (normalizeFlightData f "tail_number")), u)

/-- `FlightService.getFlightData`, in the exact statement order of the
source: raw-length check, quota consult, cleaning, cleaned-length check,
classification, lookup dispatch, with the outer catch mapping 401 / 429.
The quota tracker state is threaded through explicitly. -/
def getFlightData (env : Env) (monthlyLimit : Nat)
    (now : ApiUsageTracker.JsDate) (u : ApiUsageTracker.UsageData)
    (identifier : String) :
    Except LookupError (Option NormalizedFlight) × ApiUsageTracker.UsageData :=
  if identifier.length < 2 then (.error .tooShort, u)
  else
    let r := ApiUsageTracker.canMakeRequest monthlyLimit now u
    let u := r.2
    if !r.1 then (.error .quotaExceeded, u)
    else
      let clean := cleanIdentifier identifier
      if clean.length < 2 then (.error .invalidFormat, u)
      else if !isFlightNumber clean && !isTailNumber clean then
        (.error .invalidFormat, u)
      else
        let res := if isFlightNumber clean then getFlightByNumber env now u clean
          else getFlightByTailNumber env now u clean
        match res with
        | (.ok v, u) => (.ok v, u)
        | (.error st, u) => (.error (mapCaught st), u)

end FlightService

/-- A remote API that always answers with an empty flights array; a
concrete environment for closed evaluations. -/
def emptyApi : FlightService.Env :=
  { flightsEndpoint := fun _ => .ok []
    aircraftFlightsEndpoint := fun _ => .ok [] }

/-- A wall clock and a matching fresh zero-usage tracker state. -/
def mayClock : ApiUsageTracker.JsDate := ⟨4, 2025, ""⟩

/-- Fresh tracker state for `mayClock`: zero count, empty log. -/
def freshUsage : ApiUsageTracker.UsageData := ⟨4, 2025, 0, [], ""⟩

/-- Tracker state for `mayClock` whose count has reached the limit 1000. -/
def exhaustedUsage : ApiUsageTracker.UsageData := ⟨4, 2025, 1000, [], ""⟩

/-- C6 counterexample: `U-` has raw length 2 but cleans to the single
character `U`; `getFlightData` (with quota available) rejects it with the
"Invalid flight identifier format" error, not the
"Flight identifier too short" one. -/
theorem getFlightData_strippedShort_is_invalidFormat_on_dashU :
    2 ≤ "U-".length ∧
    (FlightService.cleanIdentifier "U-").length < 2 ∧
    (FlightService.getFlightData emptyApi 1000 mayClock freshUsage "U-").1 =
      .error .invalidFormat ∧
    FlightService.LookupError.invalidFormat ≠ .tooShort := by
  refine ⟨by decide, by decide, rfl, by decide⟩

/-- C6 amended: a raw identifier of length at least 2 whose cleaned form
has fewer than 2 characters fails with `invalidFormat` — provided the
quota consult, which the code runs before cleaning, allows the request. -/
theorem getFlightData_strippedShort_invalidFormat
    (env : FlightService.Env) (monthlyLimit : Nat)
    (now : ApiUsageTracker.JsDate) (u : ApiUsageTracker.UsageData)
    (identifier : String)
    (h2 : 2 ≤ identifier.length)
    (hc : (FlightService.cleanIdentifier identifier).length < 2)
    (hq : (ApiUsageTracker.canMakeRequest monthlyLimit now u).1 = true) :
    (FlightService.getFlightData env monthlyLimit now u identifier).1 =
      .error .invalidFormat := by
  unfold FlightService.getFlightData
  rw [if_neg (by omega)]
  simp [hq, hc]

/-- C6 amended witness: the identifier `U-` with a fresh quota state. -/
theorem getFlightData_strippedShort_invalidFormat_witness :
    (FlightService.getFlightData emptyApi 1000 mayClock freshUsage "U-").1 =
      .error .invalidFormat :=
  getFlightData_strippedShort_invalidFormat emptyApi 1000 mayClock freshUsage
    "U-" (by decide) (by decide) (by decide)

/-- C7 counterexample: `12345` matches neither pattern, yet with the quota
exhausted `getFlightData` fails with `quotaExceeded`, not `invalidFormat` —
the quota consult precedes classification. -/
theorem getFlightData_quota_before_classification_counterexample :
    FlightService.classify (FlightService.cleanIdentifier "12345") =
      .invalid ∧
    (FlightService.getFlightData emptyApi 1000 mayClock exhaustedUsage
        "12345").1 = .error .quotaExceeded ∧
    FlightService.LookupError.quotaExceeded ≠ .invalidFormat := by
  refine ⟨by decide, rfl, by decide⟩

/-- C7 amended: in `getFlightData` the quota consult precedes cleaning and
classification: with the quota exhausted any identifier of raw length at
least 2 fails with `quotaExceeded` regardless of its format, and
`invalidFormat` is reported only when the quota allows the request. -/
theorem getFlightData_quota_precedes_classification
    (env : FlightService.Env) (monthlyLimit : Nat)
    (now : ApiUsageTracker.JsDate) (u : ApiUsageTracker.UsageData)
    (identifier : String)
    (h2 : 2 ≤ identifier.length) :
    ((ApiUsageTracker.canMakeRequest monthlyLimit now u).1 = false →
      (FlightService.getFlightData env monthlyLimit now u identifier).1 =
        .error .quotaExceeded) ∧
    ((ApiUsageTracker.canMakeRequest monthlyLimit now u).1 = true →
      FlightService.classify (FlightService.cleanIdentifier identifier) =
        .invalid →
      (FlightService.getFlightData env monthlyLimit now u identifier).1 =
        .error .invalidFormat) := by
  constructor
  · intro hq
    unfold FlightService.getFlightData
    rw [if_neg (by omega)]
    simp [hq]
  · intro hq hcls
    have hf : FlightService.isFlightNumber
        (FlightService.cleanIdentifier identifier) = false := by
      by_contra hne
      rw [Bool.not_eq_false] at hne
      simp [FlightService.classify, hne] at hcls
    have ht : FlightService.isTailNumber
        (FlightService.cleanIdentifier identifier) = false := by
      by_contra hne
      rw [Bool.not_eq_false] at hne
      simp [FlightService.classify, hf, hne] at hcls
    unfold FlightService.getFlightData
    rw [if_neg (by omega)]
    by_cases hl : (FlightService.cleanIdentifier identifier).length < 2 <;>
      simp [hq, hl, hf, ht]

/-- C7 amended witness: with the quota exhausted, the unclassifiable
identifier `!!!!` fails with `quotaExceeded`; with a fresh quota state the
unclassifiable `12345` fails with `invalidFormat`. -/
theorem getFlightData_quota_precedes_classification_witness :
    (FlightService.getFlightData emptyApi 1000 mayClock exhaustedUsage
        "!!!!").1 = .error .quotaExceeded ∧
    (FlightService.getFlightData emptyApi 1000 mayClock freshUsage
        "12345").1 = .error .invalidFormat :=
  ⟨(getFlightData_quota_precedes_classification emptyApi 1000 mayClock
      exhaustedUsage "!!!!" (by decide)).1 (by decide),
   (getFlightData_quota_precedes_classification emptyApi 1000 mayClock
      freshUsage "12345" (by decide)).2 (by decide) (by decide)⟩

namespace FlightMonitor

/-- `TrackedFlight` in `types.ts`; `lastUpdated` is the `Date.getTime()`
value in milliseconds. -/
structure TrackedFlight where
  flight : FlightService.NormalizedFlight
  channelId : String
  userId : String
  identifier : String
  lastStatus : String
  lastUpdated : Nat
  updateCount : Nat
  hasLanded : Bool
deriving DecidableEq, Repr

/-- The registry `trackedFlights : Map`, as its association list in
insertion order; the key is `identifier + "_" + channelId`. -/
abbrev Registry := List (String × TrackedFlight)

/-- Outcome of one `getFlightData` call during the poll cycle: a flight,
a null "not found" result, or a thrown error. -/
inductive FetchOutcome where
  | success (f : FlightService.NormalizedFlight)
  | notFound
  | failure

/-- `FlightMonitor.checkSingleFlight` for one tracked entry: on a
successful non-null fetch, send an update when `shouldSendUpdate` fires
(recorded as a channel id / update type pair) and mutate
`lastStatus` / `updateCount` / `hasLanded`, then always refresh
`lastUpdated` and the snapshot; a null result or an error leaves the entry
untouched. -/
def checkSingleFlight (fetch : String → FetchOutcome) (fetchTime : Nat)
    (tracking : TrackedFlight) : TrackedFlight × List (String × String) :=
  match fetch tracking.identifier with
  | .notFound => (tracking, [])
  | .failure => (tracking, [])
  | .success updatedFlight =>
    let currentStatus := updatedFlight.flight_status
    if FlightService.shouldSendUpdate currentStatus tracking.lastStatus then
      ({ tracking with
          flight := updatedFlight
          lastStatus := currentStatus
          updateCount := tracking.updateCount + 1
          hasLanded := if currentStatus = "landed" then true
            else tracking.hasLanded
          lastUpdated := fetchTime },
        [(tracking.channelId, currentStatus)])
    else
      ({ tracking with flight := updatedFlight, lastUpdated := fetchTime }, [])

/-- The 5-minute poll interval in milliseconds (`5 * 60 * 1000`). -/
def pollInterval : Nat := 5 * 60 * 1000

/-- The pruning-or-removal test of the selection loop:
`tracking.hasLanded && tracking.updateCount > 10`. -/
def pruneTest (e : String × TrackedFlight) : Bool :=
  e.2.hasLanded && decide (e.2.updateCount > 10)

/-- The staleness test of the selection loop:
`currentTime - lastUpdated > 5 * 60 * 1000` (JS subtraction of a later
timestamp is negative and fails the test exactly as truncated `Nat`
subtraction does). -/
def staleTest (now : Nat) (e : String × TrackedFlight) : Bool :=
  decide (now - e.2.lastUpdated > pollInterval)

/-- The selection loop of `checkFlightUpdates`: visit entries in registry
order, delete entries passing `pruneTest`, and collect the stale survivors
as candidates. Returns (surviving registry, candidates), both in original
order. -/
def prunePhase (now : Nat) : Registry → Registry × Registry
  | [] => ([], [])
  | e :: rest =>
    let r := prunePhase now rest
    if pruneTest e then r
    else (e :: r.1, if staleTest now e then e :: r.2 else r.2)

/-- The quota-critical capping sort:
`sort((a, b) => b.tracking.lastUpdated.getTime() - a.tracking.lastUpdated.getTime())`,
a stable sort by `lastUpdated` descending. -/
def sortByLastUpdatedDesc (l : Registry) : Registry :=
  l.mergeSort (fun a b => decide (b.2.lastUpdated ≤ a.2.lastUpdated))

/-- The capping step: when tracking is limited and more than 2 candidates
are stale, keep only the 2 most recently updated. -/
def selectCandidates (shouldLimit : Bool) (cands : Registry) : Registry :=
  if shouldLimit && decide (cands.length > 2) then
    (sortByLastUpdatedDesc cands).take 2
  else cands

/-- `FlightMonitor.checkFlightUpdates`: quota gate, selection loop,
critical capping, then a `checkSingleFlight` per surviving candidate.
`canReq` and `shouldLimit` are the two quota-tracker reads at cycle start;
`fetch` is the remote lookup; the result is the registry after the cycle
together with the update messages sent. -/
def checkFlightUpdates (canReq shouldLimit : Bool) (now fetchTime : Nat)
    (fetch : String → FetchOutcome) (reg : Registry) :
    Registry × List (String × String) :=
  if !canReq then (reg, [])
  else
    let pr := prunePhase now reg
    let selected := selectCandidates shouldLimit pr.2
    let selKeys := selected.map Prod.fst
    (pr.1.map (fun e =>
        if selKeys.contains e.1 then
          (e.1, (checkSingleFlight fetch fetchTime e.2).1)
        else e),
      (selected.map (fun e => (checkSingleFlight fetch fetchTime e.2).2)).flatten)

theorem prunePhase_fst_eq_filter (now : Nat) (l : Registry) :
    (prunePhase now l).1 = l.filter (fun e => !pruneTest e) := by
  induction l with
  | nil => rfl
  | cons e rest ih =>
    by_cases h : pruneTest e <;> simp [prunePhase, h, ih]

theorem prunePhase_snd_subset_fst (now : Nat) (l : Registry) :
    ∀ e ∈ (prunePhase now l).2, e ∈ (prunePhase now l).1 := by
  induction l with
  | nil => intro e h; cases h
  | cons a rest ih =>
    intro e he
    by_cases h : pruneTest a
    · simp only [prunePhase, h, if_pos] at he ⊢
      exact ih e he
    · simp only [prunePhase, h, if_neg, Bool.false_eq_true,
        not_false_iff] at he ⊢
      by_cases hs : staleTest now a
      · simp only [hs, if_pos] at he
        rcases List.mem_cons.mp he with h1 | h1
        · exact List.mem_cons.mpr (Or.inl h1)
        · exact List.mem_cons.mpr (Or.inr (ih e h1))
      · simp only [hs, if_neg, Bool.false_eq_true, not_false_iff] at he
        exact List.mem_cons.mpr (Or.inr (ih e he))

theorem prunePhase_snd_eq_filter (now : Nat) (l : Registry) :
    (prunePhase now l).2 =
      l.filter (fun e => !pruneTest e && staleTest now e) := by
  induction l with
  | nil => rfl
  | cons e rest ih =>
    by_cases h : pruneTest e
    · simp [prunePhase, h, ih]
    · by_cases hs : staleTest now e <;> simp [prunePhase, h, hs, ih]

/-- In an association list whose keys are distinct, a key determines its
value. -/
theorem eq_of_mem_of_nodup_keys {α β : Type} {l : List (α × β)}
    (hnd : (l.map Prod.fst).Nodup) {k : α} {t t' : β}
    (h1 : (k, t) ∈ l) (h2 : (k, t') ∈ l) : t = t' := by
  induction l with
  | nil => cases h1
  | cons e rest ih =>
    rw [List.map_cons, List.nodup_cons] at hnd
    rcases List.mem_cons.mp h1 with h1h | h1t <;>
      rcases List.mem_cons.mp h2 with h2h | h2t
    · exact (Prod.ext_iff.mp (h1h.trans h2h.symm)).2
    · exact absurd (List.mem_map.mpr ⟨(k, t'), h2t, by rw [← h1h]⟩) hnd.1
    · exact absurd (List.mem_map.mpr ⟨(k, t), h1t, by rw [← h2h]⟩) hnd.1
    · exact ih hnd.2 h1t h2t

/-- The per-candidate fetch phase changes no keys: the cycle's result
registry has the same keys as the pruned registry. -/
theorem checkFlightUpdates_keys (shouldLimit : Bool) (now ft : Nat)
    (fetch : String → FetchOutcome) (reg : Registry) :
    ((checkFlightUpdates true shouldLimit now ft fetch reg).1.map Prod.fst) =
      ((prunePhase now reg).1.map Prod.fst) := by
  simp only [checkFlightUpdates, Bool.not_true, Bool.false_eq_true,
    if_neg, not_false_iff, List.map_map]
  refine List.map_congr_left (fun e _ => ?_)
  simp only [Function.comp_apply]
  split <;> rfl

end FlightMonitor

/-- C4: when `canMakeRequest()` is false at cycle start,
`checkFlightUpdates` returns with the registry unchanged — no pruning, no
timestamp or snapshot mutation, no fetch result applied, and no message
sent. -/
theorem checkFlightUpdates_skips_cycle_without_quota
    (shouldLimit : Bool) (now ft : Nat)
    (fetch : String → FlightMonitor.FetchOutcome)
    (reg : FlightMonitor.Registry) :
    FlightMonitor.checkFlightUpdates false shouldLimit now ft fetch reg =
      (reg, []) := rfl

/-- C2: on a cycle with quota available, an entry of the registry (with
distinct keys) is removed exactly when `hasLanded` is true and
`updateCount` is strictly greater than 10. -/
theorem checkFlightUpdates_removes_iff_landed_drained
    (shouldLimit : Bool) (now ft : Nat)
    (fetch : String → FlightMonitor.FetchOutcome)
    (reg : FlightMonitor.Registry) (k : String)
    (t : FlightMonitor.TrackedFlight)
    (hmem : (k, t) ∈ reg) (hnd : (reg.map Prod.fst).Nodup) :
    k ∉ ((FlightMonitor.checkFlightUpdates true shouldLimit now ft fetch
        reg).1.map Prod.fst) ↔
      (t.hasLanded = true ∧ 10 < t.updateCount) := by
  rw [FlightMonitor.checkFlightUpdates_keys,
    FlightMonitor.prunePhase_fst_eq_filter]
  constructor
  · intro hnotin
    by_contra hcond
    apply hnotin
    apply List.mem_map.mpr
    refine ⟨(k, t), List.mem_filter.mpr ⟨hmem, ?_⟩, rfl⟩
    simp only [FlightMonitor.pruneTest, Bool.not_eq_true', Bool.and_eq_false_iff,
      decide_eq_false_iff_not, not_lt]
    by_cases hl : t.hasLanded
    · exact Or.inr (by
        by_contra hc
        exact hcond ⟨hl, by omega⟩)
    · exact Or.inl (by simpa using hl)
  · intro hcond hin
    obtain ⟨e, hef, hek⟩ := List.mem_map.mp hin
    obtain ⟨k', t'⟩ := e
    obtain rfl : k' = k := hek
    have hereg := (List.mem_filter.mp hef).1
    have hpt := (List.mem_filter.mp hef).2
    have ht : t' = t :=
      FlightMonitor.eq_of_mem_of_nodup_keys hnd hereg hmem
    subst ht
    simp [FlightMonitor.pruneTest, hcond.1, hcond.2] at hpt

/-- A minimal normalized flight record for concrete registry entries. -/
def dummyFlight : FlightService.NormalizedFlight :=
  { flight := {}, flight_status := "active" }

/-- A landed entry whose notification count has passed the drain
threshold. -/
def landedEleven : FlightMonitor.TrackedFlight :=
  { flight := dummyFlight, channelId := "C1", userId := "U1",
    identifier := "UA400", lastStatus := "landed", lastUpdated := 0,
    updateCount := 11, hasLanded := true }

/-- A landed entry exactly at the threshold (count 10, not above). -/
def landedTen : FlightMonitor.TrackedFlight :=
  { flight := dummyFlight, channelId := "C2", userId := "U1",
    identifier := "UA400", lastStatus := "landed", lastUpdated := 0,
    updateCount := 10, hasLanded := true }

/-- Two-entry registry exercising the drain boundary. -/
def drainRegistry : FlightMonitor.Registry :=
  [("UA400_C1", landedEleven), ("UA400_C2", landedTen)]

/-- C2 witness: on `drainRegistry`, the count-11 landed entry is removed
and the count-10 landed entry is kept. -/
theorem checkFlightUpdates_removes_iff_landed_drained_witness :
    "UA400_C1" ∉ ((FlightMonitor.checkFlightUpdates true false 1000000
        1000000 (fun _ => .notFound) drainRegistry).1.map Prod.fst) ∧
    "UA400_C2" ∈ ((FlightMonitor.checkFlightUpdates true false 1000000
        1000000 (fun _ => .notFound) drainRegistry).1.map Prod.fst) := by
  constructor
  · exact (checkFlightUpdates_removes_iff_landed_drained false 1000000
      1000000 (fun _ => .notFound) drainRegistry "UA400_C1" landedEleven
      (List.mem_cons_self _ _) (by decide)).mpr
      ⟨rfl, by simp [landedEleven]⟩
  · exact not_not.mp (fun h => absurd
      ((checkFlightUpdates_removes_iff_landed_drained false 1000000
        1000000 (fun _ => .notFound) drainRegistry "UA400_C2" landedTen
        (by simp [drainRegistry]) (by decide)).mp h).2
      (by simp [landedTen]))

/-- C8 counterexample: a fetch attempt that returns null leaves
`lastUpdated` at its old value instead of stamping the attempt time. -/
theorem checkSingleFlight_notFound_keeps_lastUpdated :
    (FlightMonitor.checkSingleFlight (fun _ => .notFound) 999
        { flight := dummyFlight, channelId := "C1", userId := "U1",
          identifier := "UA400", lastStatus := "active", lastUpdated := 5,
          updateCount := 0, hasLanded := false }).1.lastUpdated = 5 ∧
    (5 : Nat) ≠ 999 := ⟨rfl, by norm_num⟩

/-- C8 amended: `checkSingleFlight` stamps `lastUpdated` with the fetch
time (and stores the new snapshot) only when the fetch succeeds with a
non-null flight; a null result or a thrown error leaves the entry entirely
unchanged. -/
theorem checkSingleFlight_lastUpdated_only_on_success
    (fetch : String → FlightMonitor.FetchOutcome) (ft : Nat)
    (t : FlightMonitor.TrackedFlight) :
    (∀ f, fetch t.identifier = .success f →
      (FlightMonitor.checkSingleFlight fetch ft t).1.lastUpdated = ft ∧
      (FlightMonitor.checkSingleFlight fetch ft t).1.flight = f) ∧
    (fetch t.identifier = .notFound →
      (FlightMonitor.checkSingleFlight fetch ft t).1 = t) ∧
    (fetch t.identifier = .failure →
      (FlightMonitor.checkSingleFlight fetch ft t).1 = t) := by
  refine ⟨fun f hf => ?_, fun h => ?_, fun h => ?_⟩
  · unfold FlightMonitor.checkSingleFlight
    rw [hf]
    by_cases hs : FlightService.shouldSendUpdate f.flight_status
        t.lastStatus <;> simp [hs]
  · unfold FlightMonitor.checkSingleFlight
    rw [h]
  · unfold FlightMonitor.checkSingleFlight
    rw [h]

/-- C8 amended witness: a null fetch leaves a concrete entry unchanged; a
successful fetch stamps the fetch time. -/
theorem checkSingleFlight_lastUpdated_only_on_success_witness :
    (FlightMonitor.checkSingleFlight (fun _ => .notFound) 999
        landedTen).1 = landedTen ∧
    (FlightMonitor.checkSingleFlight (fun _ => .success dummyFlight) 999
        landedTen).1.lastUpdated = 999 :=
  ⟨(checkSingleFlight_lastUpdated_only_on_success (fun _ => .notFound) 999
      landedTen).2.1 rfl,
   ((checkSingleFlight_lastUpdated_only_on_success
      (fun _ => .success dummyFlight) 999 landedTen).1 dummyFlight rfl).1⟩

/-- C3: with quota available and critical limiting on, when strictly more
than 2 candidates are stale the cycle fetches exactly 2 of them — each
selected candidate has a strictly greater `lastUpdated` than every
unselected one (timestamps assumed distinct, as the claim's "the 2 with
the greatest lastUpdated" presupposes) — and every unselected candidate
survives the cycle completely untouched; with 2 or fewer candidates all
of them are kept for fetching. -/
theorem checkFlightUpdates_critical_caps_candidates
    (now ft : Nat) (fetch : String → FlightMonitor.FetchOutcome)
    (reg : FlightMonitor.Registry)
    (cands selected : FlightMonitor.Registry)
    (hnd : (reg.map Prod.fst).Nodup)
    (hc : cands = (FlightMonitor.prunePhase now reg).2)
    (hs : selected = FlightMonitor.selectCandidates true cands) :
    (2 < cands.length →
      (cands.map (fun e => e.2.lastUpdated)).Nodup →
      selected.length = 2 ∧
      (∀ s ∈ selected, s ∈ cands) ∧
      (∀ s ∈ selected, ∀ c ∈ cands, c ∉ selected →
        c.2.lastUpdated < s.2.lastUpdated) ∧
      (∀ c ∈ cands, c ∉ selected →
        c ∈ (FlightMonitor.checkFlightUpdates true true now ft fetch
          reg).1)) ∧
    (cands.length ≤ 2 → selected = cands) := by
  subst hs
  constructor
  · intro hlen hts
    have hsel : FlightMonitor.selectCandidates true cands =
        (FlightMonitor.sortByLastUpdatedDesc cands).take 2 := by
      simp [FlightMonitor.selectCandidates, hlen]
    set le : (String × FlightMonitor.TrackedFlight) →
        (String × FlightMonitor.TrackedFlight) → Bool :=
      fun a b => decide (b.2.lastUpdated ≤ a.2.lastUpdated) with hle
    have hperm : List.Perm (FlightMonitor.sortByLastUpdatedDesc cands)
        cands := List.mergeSort_perm cands le
    have hsorted : (FlightMonitor.sortByLastUpdatedDesc cands).Pairwise
        (fun a b => le a b = true) := by
      have := @List.sorted_mergeSort _ le
        (fun a b c h1 h2 => by
          simp only [hle, decide_eq_true_eq] at *
          omega)
        (fun a b => by
          simp only [hle, Bool.or_eq_true, decide_eq_true_eq]
          exact Nat.le_total _ _)
        cands
      simpa using this
    set l' := FlightMonitor.sortByLastUpdatedDesc cands with hl'
    have hlen' : l'.length = cands.length := hperm.length_eq
    refine ⟨?_, ?_, ?_, ?_⟩
    · rw [hsel, List.length_take]
      omega
    · intro s hsm
      rw [hsel] at hsm
      exact hperm.mem_iff.mp (List.mem_of_mem_take hsm)
    · intro s hsmem c hcmem hcnot
      rw [hsel] at hsmem hcnot
      have hcl' : c ∈ l' := hperm.mem_iff.mpr hcmem
      have hcdrop : c ∈ l'.drop 2 := by
        rcases List.mem_append.mp
          (by rw [List.take_append_drop]; exact hcl' :
            c ∈ l'.take 2 ++ l'.drop 2) with h | h
        · exact absurd h hcnot
        · exact h
      have hpair : (l'.take 2 ++ l'.drop 2).Pairwise
          (fun a b => le a b = true) := by
        rw [List.take_append_drop]; exact hsorted
      have hrel := (List.pairwise_append.mp hpair).2.2 s hsmem c hcdrop
      have hle' : c.2.lastUpdated ≤ s.2.lastUpdated := by
        simpa [hle] using hrel
      have hnodup_l' : (l'.map (fun e => e.2.lastUpdated)).Nodup :=
        ((hperm.map _).nodup_iff).mpr hts
      have hdisj := (List.nodup_append.mp (by
        rw [← List.map_append, List.take_append_drop]
        exact hnodup_l' :
          ((l'.take 2).map (fun e => e.2.lastUpdated) ++
            (l'.drop 2).map (fun e => e.2.lastUpdated)).Nodup)).2.2
      have hne : s.2.lastUpdated ≠ c.2.lastUpdated := by
        intro heq
        exact hdisj (List.mem_map.mpr ⟨s, hsmem, rfl⟩)
          (List.mem_map.mpr ⟨c, hcdrop, heq.symm⟩)
      omega
    · intro c hcmem hcnot
      have hckept : c ∈ (FlightMonitor.prunePhase now reg).1 :=
        FlightMonitor.prunePhase_snd_subset_fst now reg c (hc ▸ hcmem)
      have hcreg : c ∈ reg := by
        rw [FlightMonitor.prunePhase_fst_eq_filter] at hckept
        exact List.mem_of_mem_filter hckept
      have hnotkey : ((FlightMonitor.selectCandidates true
          (FlightMonitor.prunePhase now reg).2).map Prod.fst).contains
            c.1 = false := by
        rw [← hc]
        by_contra hcont
        rw [Bool.not_eq_false] at hcont
        obtain ⟨k, hkmem, hkeq⟩ :=
          List.contains_iff_exists_mem_beq.mp hcont
        obtain ⟨s, hssel, rfl⟩ := List.mem_map.mp hkmem
        have hseq : s.1 = c.1 := (eq_of_beq hkeq).symm
        have hscand : s ∈ cands := by
          rw [hsel] at hssel
          exact hperm.mem_iff.mp (List.mem_of_mem_take hssel)
        have hsreg : s ∈ reg := by
          have := FlightMonitor.prunePhase_snd_subset_fst now reg s
            (hc ▸ hscand)
          rw [FlightMonitor.prunePhase_fst_eq_filter] at this
          exact List.mem_of_mem_filter this
        have hm1 : (s.1, s.2) ∈ reg := by rw [Prod.mk.eta]; exact hsreg
        have hm2 : (s.1, c.2) ∈ reg := by
          rw [hseq, Prod.mk.eta]; exact hcreg
        have hsnd : s.2 = c.2 :=
          FlightMonitor.eq_of_mem_of_nodup_keys hnd hm1 hm2
        have : s = c := Prod.ext hseq hsnd
        exact hcnot (this ▸ hssel)
      show c ∈ (FlightMonitor.checkFlightUpdates true true now ft fetch
        reg).1
      simp only [FlightMonitor.checkFlightUpdates, Bool.not_true,
        Bool.false_eq_true, if_neg, not_false_iff]
      exact List.mem_map.mpr ⟨c, hckept, by
        rw [hnotkey]
        simp⟩
  · intro hle2
    have : ¬ (2 < cands.length) := by omega
    simp [FlightMonitor.selectCandidates, this]

/-- A stale active entry for the capping scenario. -/
def staleAt (ch : String) (lu : Nat) : FlightMonitor.TrackedFlight :=
  { flight := dummyFlight, channelId := ch, userId := "U1",
    identifier := "UA400", lastStatus := "active", lastUpdated := lu,
    updateCount := 0, hasLanded := false }

/-- Three stale candidates with distinct `lastUpdated` values. -/
def capRegistry : FlightMonitor.Registry :=
  [("UA400_C1", staleAt "C1" 100), ("UA400_C2", staleAt "C2" 200),
    ("UA400_C3", staleAt "C3" 300)]

unseal List.merge List.mergeSort in
/-- C3 witness: on the three-candidate registry with critical limiting,
exactly 2 candidates are selected and the least recently updated one
survives the cycle untouched. -/
theorem checkFlightUpdates_critical_caps_candidates_witness :
    (FlightMonitor.selectCandidates true
        (FlightMonitor.prunePhase 1000000 capRegistry).2).length = 2 ∧
    ("UA400_C1", staleAt "C1" 100) ∈
      (FlightMonitor.checkFlightUpdates true true 1000000 1000000
        (fun _ => .notFound) capRegistry).1 := by
  have h := checkFlightUpdates_critical_caps_candidates 1000000 1000000
    (fun _ => .notFound) capRegistry
    (FlightMonitor.prunePhase 1000000 capRegistry).2
    (FlightMonitor.selectCandidates true
      (FlightMonitor.prunePhase 1000000 capRegistry).2)
    (by decide) rfl rfl
  have h1 := h.1 (by decide) (by decide)
  exact ⟨h1.1, h1.2.2.2 ("UA400_C1", staleAt "C1" 100) (by decide)
    (by decide)⟩
